import Mathlib

/-!
Verification development for the content-gen backend.

This file gives a shallow embedding of the AI generation subsystem of the
repository:

- the node-attribute rewriting of dict-shaped content nodes
  (backend/app/api/routes/ai.py, inject_attributes);
- the draft-content streaming wire protocol
  (backend/app/services/ai_generator.py, AIGenerator._stream_content);
- the image-generation submit/poll/download/store pipeline, both the route
  implementation (backend/app/api/routes/ai.py, generate_image) and the
  service implementation (backend/app/services/ai_generator.py, AIGenerator);
- the local-disk uploader (backend/app/services/image_uploader.py,
  LocalImageUploader).

Python dictionaries are embedded as association lists of string keys over a
JSON value type; outbound HTTP calls, disk writes and database commits are
embedded as environment parameters carrying the outcome of each side effect;
Python exceptions are embedded as an explicit error alternative carrying the
text str(e) of the exception.
-/

/-- JSON-like values, modelling the Python dict/list/str/int/bool/None data
that flows through the routes. Dicts are association lists in insertion
order, as in CPython. -/
inductive JValue where
  | nul
  | b (v : Bool)
  | n (v : Int)
  | s (v : String)
  | arr (items : List JValue)
  | obj (fields : List (String × JValue))
deriving Repr

/-- Dict read: first binding of the key, as Python d[k] / d.get(k). -/
def objGet (fields : List (String × JValue)) (k : String) : Option JValue :=
  match fields with
  | [] => none
  | (k2, v) :: rest => if k2 = k then some v else objGet rest k

/-- Dict write d[k] = v: replace in place when the key exists (CPython keeps
the insertion position), append at the end otherwise. -/
def objSet (fields : List (String × JValue)) (k : String) (v : JValue) :
    List (String × JValue) :=
  match fields with
  | [] => [(k, v)]
  | (k2, v2) :: rest =>
    if k2 = k then (k, v) :: rest else (k2, v2) :: objSet rest k v

/-- Dict removal d.pop(k): drop the first binding of the key. -/
def objPop (fields : List (String × JValue)) (k : String) :
    List (String × JValue) :=
  match fields with
  | [] => []
  | (k2, v2) :: rest =>
    if k2 = k then rest else (k2, v2) :: objPop rest k

theorem objGet_mem {fields : List (String × JValue)} {k : String} {v : JValue}
    (h : objGet fields k = some v) : (k, v) ∈ fields := by
  induction fields with
  | nil => simp [objGet] at h
  | cons hd tl ih =>
    obtain ⟨k2, v2⟩ := hd
    simp only [objGet] at h
    split at h
    · simp_all
    · exact List.mem_cons_of_mem _ (ih h)

theorem sizeOf_objGet {fields : List (String × JValue)} {k : String} {v : JValue}
    (h : objGet fields k = some v) : sizeOf v < sizeOf fields := by
  have hm := objGet_mem h
  have h1 : sizeOf (k, v) ≤ sizeOf fields := le_of_lt (List.sizeOf_lt_of_mem hm)
  simp only [Prod.mk.sizeOf_spec] at h1
  omega

theorem objGet_objSet_ne (fields : List (String × JValue)) (k k2 : String)
    (v : JValue) (h : k ≠ k2) : objGet (objSet fields k v) k2 = objGet fields k2 := by
  induction fields with
  | nil => simp [objGet, objSet, h]
  | cons hd tl ih =>
    obtain ⟨k3, v3⟩ := hd
    by_cases h3 : k3 = k <;> simp [objGet, objSet, h3, h, ih]

theorem objGet_objSet_eq (fields : List (String × JValue)) (k : String)
    (v : JValue) : objGet (objSet fields k v) k = some v := by
  induction fields with
  | nil => simp [objGet, objSet]
  | cons hd tl ih =>
    obtain ⟨k3, v3⟩ := hd
    by_cases h3 : k3 = k <;> simp [objGet, objSet, h3, ih]

theorem objGet_objPop_ne (fields : List (String × JValue)) (k k2 : String)
    (h : k ≠ k2) : objGet (objPop fields k) k2 = objGet fields k2 := by
  induction fields with
  | nil => simp [objPop]
  | cons hd tl ih =>
    obtain ⟨k3, v3⟩ := hd
    by_cases h3 : k3 = k
    · subst h3
      simp [objGet, objPop, h]
    · by_cases h5 : k3 = k2 <;> simp [objGet, objPop, h3, h5, ih, Ne.symm h]

/-- Hexadecimal digit character, lowercase, as used by json.dumps. -/
def hexDigit (n : Nat) : Char := Nat.digitChar n

/-- Four-digit lowercase hexadecimal rendering of a code unit. -/
def hex4 (n : Nat) : String :=
  String.mk [hexDigit (n / 4096 % 16), hexDigit (n / 256 % 16),
    hexDigit (n / 16 % 16), hexDigit (n % 16)]

/-- Escaping of one character by json.dumps with its default ensure_ascii:
quote and backslash escaped, the usual control shorthands, and every
character outside printable ASCII rendered as a \u escape (with a surrogate
pair above the basic plane). -/
def json_escape_char (c : Char) : String :=
  if c = '"' then "\\\""
  else if c = '\\' then "\\\\"
  else if c = '\n' then "\\n"
  else if c = '\t' then "\\t"
  else if c = '\r' then "\\r"
  else if c = '\x08' then "\\b"
  else if c = '\x0c' then "\\f"
  else if c.toNat < 32 ∨ 126 < c.toNat then
    if c.toNat < 65536 then "\\u" ++ hex4 c.toNat
    else
      "\\u" ++ hex4 (55296 + (c.toNat - 65536) / 1024) ++
      "\\u" ++ hex4 (56320 + (c.toNat - 65536) % 1024)
  else String.singleton c

/-- String-body escaping of json.dumps. -/
def json_escape (v : String) : String :=
  String.join (v.data.map json_escape_char)

mutual

/-- Serialization of a value by json.dumps with its default separators
(comma-space between members, colon-space after keys). -/
def jsonDumps : JValue → String
  | .nul => "null"
  | .b true => "true"
  | .b false => "false"
  | .n v => toString v
  | .s v => "\"" ++ json_escape v ++ "\""
  | .arr items => "[" ++ jsonDumpsItems items ++ "]"
  | .obj fields => "\x7b" ++ jsonDumpsFields fields ++ "\x7d"
termination_by j => sizeOf j

/-- Comma-separated serialization of list members. -/
def jsonDumpsItems : List JValue → String
  | [] => ""
  | [x] => jsonDumps x
  | x :: y :: rest => jsonDumps x ++ ", " ++ jsonDumpsItems (y :: rest)
termination_by l => sizeOf l

/-- Comma-separated serialization of dict entries. -/
def jsonDumpsFields : List (String × JValue) → String
  | [] => ""
  | [(k, v)] => "\"" ++ json_escape k ++ "\": " ++ jsonDumps v
  | (k, v) :: y :: rest =>
    "\"" ++ json_escape k ++ "\": " ++ jsonDumps v ++ ", " ++
    jsonDumpsFields (y :: rest)
termination_by l => sizeOf l

end

/-- Fixed attrs dict injected for heading nodes (ai.py line 234). -/
def headingAttrs : JValue := .obj [("level", .n 1), ("textAlign", .s "left")]

/-- Fixed attrs dict injected for paragraph nodes (ai.py line 237). -/
def paragraphAttrs : JValue := .obj [("textAlign", .s "left")]

/-- Fixed attrs dict injected for codeBlock nodes (ai.py line 249). -/
def codeBlockAttrs : JValue := .obj [("language", .s "python")]

/-- Fixed attrs dict injected for orderedList nodes (ai.py line 252). -/
def orderedListAttrs : JValue := .obj [("start", .n 1)]

/-- Fixed attrs dict injected for listItem nodes (ai.py line 255). -/
def listItemAttrs : JValue := .obj [("color", .s "")]

/-- If/elif chain of inject_attributes on a string node type (ai.py lines
233 - 255). For an image node the src and alt entries are popped from the
node and moved into the new attrs dict; popping a missing key raises
KeyError, embedded as none. -/
def attr_step_str (ty : String) (fields : List (String × JValue)) :
    Option (List (String × JValue)) :=
  if ty = "heading" then some (objSet fields "attrs" headingAttrs)
  else if ty = "paragraph" then some (objSet fields "attrs" paragraphAttrs)
  else if ty = "image" then
    match objGet fields "src", objGet fields "alt" with
    | some src, some alt =>
      some (objSet (objPop (objPop fields "src") "alt") "attrs"
        (.obj [("src", src), ("alt", alt), ("title", .nul),
               ("width", .n 700), ("height", .n 400)]))
    | _, _ => none
  else if ty = "codeBlock" then some (objSet fields "attrs" codeBlockAttrs)
  else if ty = "orderedList" then some (objSet fields "attrs" orderedListAttrs)
  else if ty = "listItem" then some (objSet fields "attrs" listItemAttrs)
  else some fields

/-- Attribute-injection step of inject_attributes (ai.py lines 231 - 255):
the if/elif chain on the node type, before the recursive descent into the
content list. A node type that is not a string compares unequal to every
branch literal, so no branch fires. -/
def attr_step (t : JValue) (fields : List (String × JValue)) :
    Option (List (String × JValue)) :=
  match t with
  | .s ty => attr_step_str ty fields
  | _ => some fields

theorem attr_step_str_objGet_other (ty : String)
    (fields fields1 : List (String × JValue))
    (k : String) (hk1 : k ≠ "attrs") (hk2 : k ≠ "src") (hk3 : k ≠ "alt")
    (h : attr_step_str ty fields = some fields1) :
    objGet fields1 k = objGet fields k := by
  unfold attr_step_str at h
  split_ifs at h
  case _ =>
    injection h with h
    subst h
    exact objGet_objSet_ne _ _ _ _ (Ne.symm hk1)
  case _ =>
    injection h with h
    subst h
    exact objGet_objSet_ne _ _ _ _ (Ne.symm hk1)
  case _ =>
    revert h
    split
    · intro h
      injection h with h
      subst h
      rw [objGet_objSet_ne _ _ _ _ (Ne.symm hk1),
        objGet_objPop_ne _ _ _ (Ne.symm hk3),
        objGet_objPop_ne _ _ _ (Ne.symm hk2)]
    · intro h
      exact absurd h (by simp)
  case _ =>
    injection h with h
    subst h
    exact objGet_objSet_ne _ _ _ _ (Ne.symm hk1)
  case _ =>
    injection h with h
    subst h
    exact objGet_objSet_ne _ _ _ _ (Ne.symm hk1)
  case _ =>
    injection h with h
    subst h
    exact objGet_objSet_ne _ _ _ _ (Ne.symm hk1)
  case _ =>
    injection h with h
    subst h
    rfl

theorem attr_step_objGet_other (t : JValue) (fields fields1 : List (String × JValue))
    (k : String) (hk1 : k ≠ "attrs") (hk2 : k ≠ "src") (hk3 : k ≠ "alt")
    (h : attr_step t fields = some fields1) :
    objGet fields1 k = objGet fields k := by
  unfold attr_step at h
  split at h
  · exact attr_step_str_objGet_other _ _ _ _ hk1 hk2 hk3 h
  · injection h with h
    subst h
    rfl

mutual

/-- Embedding of inject_attributes (ai.py lines 227 - 261). The node must be
a dict (otherwise reading the type key raises, embedded as none) with a type
entry (a missing key raises KeyError); the attrs entry is then forced
according to the node type, and when a content entry is present the same
rewriting is applied to every child of its list. A content value that is an
empty string or an empty dict iterates to nothing in Python and becomes an
empty list; any other non-list content value leads to an exception while
iterating or while processing a non-dict child. -/
def inject_attributes : JValue → Option JValue
  | .obj fields =>
    match objGet fields "type" with
    | none => none
    | some t =>
      match h1 : attr_step t fields with
      | none => none
      | some fields1 =>
        match h2 : objGet fields1 "content" with
        | some (.arr items) =>
          match inject_attributes_list items with
          | some items2 => some (.obj (objSet fields1 "content" (.arr items2)))
          | none => none
        | some (.s sv) =>
          if sv = "" then some (.obj (objSet fields1 "content" (.arr [])))
          else none
        | some (.obj gfields) =>
          match gfields with
          | [] => some (.obj (objSet fields1 "content" (.arr [])))
          | _ => none
        | some _ => none
        | none => some (.obj fields1)
  | _ => none
termination_by j => sizeOf j
decreasing_by
  simp_wf
  have h3 : objGet fields1 "content" = objGet fields "content" := by
    apply attr_step_objGet_other _ _ _ _ _ _ _ h1 <;> decide
  rw [h3] at h2
  have h4 := sizeOf_objGet h2
  simp only [JValue.arr.sizeOf_spec] at h4
  omega

/-- Recursive descent of inject_attributes over a content list
(ai.py line 259). -/
def inject_attributes_list : List JValue → Option (List JValue)
  | [] => some []
  | x :: xs =>
    match inject_attributes x, inject_attributes_list xs with
    | some y, some ys => some (y :: ys)
    | _, _ => none
termination_by l => sizeOf l

end

/-- Left-to-right non-overlapping replacement over character lists, the
semantics of Python str.replace for a nonempty pattern. The fuel argument
is the length of the scanned list, which bounds the recursion: every step
consumes at least one character. -/
def py_replace_aux : Nat → List Char → List Char → List Char → List Char
  | 0, s, _, _ => s
  | Nat.succ fuel, s, old, new =>
    match s with
    | [] => []
    | c :: cs =>
      if old ≠ [] && old.isPrefixOf (c :: cs) then
        new ++ py_replace_aux fuel ((c :: cs).drop old.length) old new
      else
        c :: py_replace_aux fuel cs old new

/-- Python str.replace, used here only with the nonempty placeholder
patterns; the empty pattern (for which Python interleaves the replacement
everywhere) is left unmodelled and returns the string unchanged. -/
def py_replace (s old new : String) : String :=
  if old = "" then s
  else String.mk (py_replace_aux s.data.length s.data old.data new.data)

/-- Placeholder for the tone in the content-draft prompt template. -/
def TONE_PLACEHOLDER : String := "\x7b\x7bTONE\x7d\x7d"

/-- Placeholder for the format in the content-draft prompt template. -/
def FORMAT_PLACEHOLDER : String := "\x7b\x7bFORMAT\x7d\x7d"

/-- Placeholder for the style in the content-draft prompt template. -/
def STYLE_PLACEHOLDER : String := "\x7b\x7bSTYLE\x7d\x7d"

/-- System instruction built by AIGenerator._stream_content
(ai_generator.py line 159): the template text loaded from
ai_prompts/content_draft.json with the tone placeholder substituted. No
other placeholder is substituted. -/
def stream_content_system_prompt (template tone : String) : String :=
  py_replace template TONE_PLACEHOLDER tone

/-- Modelled from the spec: the spec in section 4.6 describes the system
instruction as the fixed template with the TONE, FORMAT and STYLE
placeholders all substituted by the corresponding request parameters. This
definition follows the words of the spec and is compared against the
source-derived stream_content_system_prompt. -/
def spec_draft_system_instruction (template tone fmt style : String) : String :=
  py_replace (py_replace (py_replace template TONE_PLACEHOLDER tone)
    FORMAT_PLACEHOLDER fmt) STYLE_PLACEHOLDER style

/-- Message list sent to the chat-completion call by _stream_content
(ai_generator.py lines 163 - 166): one system message holding the built
instruction, then one user message holding the request prompt. Each message
is a role/content pair. -/
def stream_content_messages (template tone userPrompt : String) :
    List (String × String) :=
  [("system", stream_content_system_prompt template tone),
   ("user", userPrompt)]

/-- Events consumed from the structured-completion stream by
_stream_content (ai_generator.py lines 171 - 178): a content delta carrying
the parsed snapshot (None when nothing parsed), the done event, an error
event carrying the message text, or any other event type, which the loop
ignores. -/
inductive StreamEvent where
  | contentDelta (parsed : Option JValue)
  | contentDone
  | errorEvent (msg : String)
  | otherEvent (ty : String)

/-- Wire line for a content delta (ai_generator.py line 174). -/
def delta_line (p : JValue) : String := jsonDumps p ++ "\n"

/-- Wire line for the done event (ai_generator.py line 178). -/
def done_line : String := jsonDumps (.obj [("done", .b true)]) ++ "\n"

/-- Wire line for an error event (ai_generator.py line 176). -/
def error_line (msg : String) : String :=
  jsonDumps (.obj [("error", .s msg)]) ++ "\n"

/-- Lines yielded for one consumed event by the if/elif chain of
_stream_content: a delta with a parsed value yields its serialization, a
delta with no parsed value yields nothing, error and done events yield
their fixed line, any other event yields nothing. -/
def stream_event_lines : StreamEvent → List String
  | .contentDelta (some p) => [delta_line p]
  | .contentDelta none => []
  | .errorEvent m => [error_line m]
  | .contentDone => [done_line]
  | .otherEvent _ => []

/-- All lines yielded by the _stream_content loop over a sequence of
consumed events, in consumption order. The loop never breaks early: it
emits for every event of the sequence. -/
def stream_content_lines : List StreamEvent → List String
  | [] => []
  | e :: es => stream_event_lines e ++ stream_content_lines es

/-- Status enum of models/image.py (ImageGenerationResultStatus), a string
enum whose members compare equal to their string values. -/
inductive ImageGenerationResultStatus where
  | TASK_NOT_FOUND
  | PENDING
  | REQUEST_MODERATED
  | CONTENT_MODERATED
  | READY
  | ERROR
deriving DecidableEq, Repr

/-- String value of each ImageGenerationResultStatus member. -/
def statusValue : ImageGenerationResultStatus → String
  | .TASK_NOT_FOUND => "Task not found"
  | .PENDING => "Pending"
  | .REQUEST_MODERATED => "Request Moderated"
  | .CONTENT_MODERATED => "Content Moderated"
  | .READY => "Ready"
  | .ERROR => "Error"

/-- Text str(e) of a fastapi HTTPException, which renders as the status
code followed by the detail. -/
def httpExceptionStr (code : Nat) (detail : String) : String :=
  toString code ++ ": " ++ detail

/-- Status-to-response mapping built identically in the route
(image_generation_response_dict, ai.py lines 40 - 58) and in the service
(AIGenerator.STATUS_RESPONSES, ai_generator.py lines 27 - 45): five entries;
READY is not a key, so looking it up would raise KeyError, embedded as
none. -/
def STATUS_RESPONSES : ImageGenerationResultStatus → Option (Nat × String)
  | .ERROR => some (500, "Image generation failed")
  | .TASK_NOT_FOUND => some (404, "Task not found")
  | .REQUEST_MODERATED => some (400, "Request was moderated due to content policy")
  | .CONTENT_MODERATED => some (400, "Generated content was moderated due to content policy")
  | .PENDING => some (200, "Pending")
  | .READY => none

/-- Key values with which the route dict can be subscripted: either an enum
member (equivalently its string value, since the enum is a string enum), or
the fastapi status module itself, which line 147 of ai.py actually uses as
the subscript. -/
inductive RouteDictKey where
  | enumMember (s : ImageGenerationResultStatus)
  | fastapiStatusModule
deriving DecidableEq, Repr

/-- Lookup in image_generation_response_dict: enum members (and their
string values) are keys; the fastapi status module is not a key, so the
lookup raises KeyError, embedded as none. -/
def image_generation_response_dict : RouteDictKey → Option (Nat × String)
  | .enumMember s => STATUS_RESPONSES s
  | .fastapiStatusModule => none

/-- Pattern of the match arm grouping the four terminal non-Ready statuses
(ai.py lines 141 - 146, ai_generator.py lines 125 - 130): matches when the
raw status string equals one of the four members, in source order. -/
def terminal_status_match (s : Option String) : Option ImageGenerationResultStatus :=
  if s = some (statusValue .ERROR) then some .ERROR
  else if s = some (statusValue .TASK_NOT_FOUND) then some .TASK_NOT_FOUND
  else if s = some (statusValue .REQUEST_MODERATED) then some .REQUEST_MODERATED
  else if s = some (statusValue .CONTENT_MODERATED) then some .CONTENT_MODERATED
  else none

/-- Parsed JSON body of one poll response (GET get_result). status is the
value of the status key (absent embedded as none); result is the value of
the sample key inside the result object, with the outer option recording
whether the result key is present at all; reprStr stands for the Python
repr of the whole dict, used in error message text. -/
structure ResultData where
  status : Option String
  result : Option (Option String)
  reprStr : String
deriving DecidableEq, Repr

/-- Outcome of one poll round trip: the HTTP call or JSON decoding raised,
or a decoded body. -/
inductive PollStep where
  | exc (msg : String)
  | data (d : ResultData)
deriving DecidableEq, Repr

/-- Outcome of the submission POST: the call raised, or a decoded body with
its optional id field and its repr. -/
inductive SubmitStep where
  | exc (msg : String)
  | resp (id : Option String) (reprStr : String)
deriving DecidableEq, Repr

/-- Outcome of the asset download GET: the call raised, or a response with
its HTTP status code and content-type header (none when absent). -/
inductive DownloadStep where
  | exc (msg : String)
  | resp (statusCode : Nat) (contentType : Option String)
deriving DecidableEq, Repr

/-- Result of a Python computation: a value, or an exception whose text
str(e) is carried. -/
inductive PyResult (A : Type) where
  | ok (v : A)
  | raised (msg : String)
deriving DecidableEq, Repr

/-- The ImageResult model (models/image.py lines 155 - 160) as returned by
the generation flows. -/
structure ImageResult where
  id : String
  prompt : String
  model : String
  url : String
deriving DecidableEq, Repr

/-- Value returned by a generate-image call: either a JSON ImageResult, or
a starlette Response with a status code, a body and a media type. -/
inductive GenOutcome where
  | imageResult (r : ImageResult)
  | plainResponse (statusCode : Nat) (body : String) (mediaType : String)
deriving DecidableEq, Repr

/-- Observable effect counters of one generate-image run: how many polls
were issued, how many asset downloads were attempted, how many local saves
or storage uploads were attempted, and the final value of the attempt
counter when the polling loop exited. -/
structure RunStats where
  pollsMade : Nat
  downloadCalls : Nat
  saveCalls : Nat
  finalAttempt : Nat
deriving DecidableEq, Repr

/-- Submission step, identical in the route (ai.py lines 62 - 77) and in
AIGenerator._start_image_generation (ai_generator.py lines 83 - 104): read
the id field of the response body; when it is absent or falsy (the empty
string) raise HTTPException 500, otherwise return the task id. -/
def start_image_generation : SubmitStep → PyResult String
  | .exc m => .raised m
  | .resp id reprStr =>
    match id with
    | none => .raised (httpExceptionStr 500 ("Failed to start image generation: " ++ reprStr))
    | some tid =>
      if tid = "" then
        .raised (httpExceptionStr 500 ("Failed to start image generation: " ++ reprStr))
      else .ok tid

/-- Environment outcomes for the Ready branch of the route: the message of
the exception raised when the result key is absent (reading sample from
None), the message raised when the sample URL is None, the download
outcome, and the optional exceptions of the save, the UUID parse and the
database persistence steps. -/
structure RouteReadyEnv where
  resultNoneExcMsg : String
  urlNoneExcMsg : String
  download : DownloadStep
  saveExc : Option String
  uuidParseExc : Option String
  persistExc : Option String
deriving DecidableEq, Repr

/-- Result of a Ready-branch execution together with its effect counts. -/
structure ReadyRun where
  res : PyResult ImageResult
  downloadCalls : Nat
  saveCalls : Nat
deriving DecidableEq, Repr

/-- Request parameters used by the generation flows: the prompt, the model
value string and the output format of a FluxPro11UltraCreate request. -/
structure FluxRequest where
  prompt : String
  model : String
  output_format : String
deriving DecidableEq, Repr

/-- Ready branch of the route (ai.py lines 92 - 134): download the asset
from the sample URL (a None URL makes the HTTP client raise), fail with
HTTPException 500 on a non-200 download, save the file locally, build the
public URL from the base URL and the task-derived filename, parse the task
id as a UUID, persist the Image row, and return the ImageResult. -/
def route_handle_ready (baseUrl : String) (req : FluxRequest) (taskId : String)
    (sample : Option String) (env : RouteReadyEnv) : ReadyRun :=
  let filename := taskId ++ "." ++ req.output_format
  match sample with
  | none => ⟨.raised env.urlNoneExcMsg, 1, 0⟩
  | some url =>
    match env.download with
    | .exc m => ⟨.raised m, 1, 0⟩
    | .resp code _ =>
      if code ≠ 200 then
        ⟨.raised (httpExceptionStr 500 ("Failed to download image from " ++ url)), 1, 0⟩
      else
        match env.saveExc with
        | some m => ⟨.raised m, 1, 1⟩
        | none =>
          match env.uuidParseExc with
          | some m => ⟨.raised m, 1, 1⟩
          | none =>
            match env.persistExc with
            | some m => ⟨.raised m, 1, 1⟩
            | none =>
              ⟨.ok ⟨taskId, req.prompt, req.model,
                baseUrl ++ "/uploads/" ++ filename⟩, 1, 1⟩

/-- Polling loop of the route (ai.py lines 80 - 163). Each iteration issues
one poll; on Ready it runs the Ready branch and returns; on Pending it
increments the attempt counter and loops; on one of the four terminal
non-Ready statuses it subscripts image_generation_response_dict with the
name status, which at that point denotes the imported fastapi status
module rather than the local image_generation_status, so the lookup raises
KeyError whose text is the repr of the module (statusModuleRepr); on any
other status it raises HTTPException 500. When the attempt counter reaches
the maximum the loop falls through to the 408 timeout response. -/
def route_poll_loop (maxAttempts : Nat) (statusModuleRepr baseUrl : String)
    (req : FluxRequest) (taskId : String) (renv : RouteReadyEnv)
    (polls : Nat → PollStep) (attempt : Nat) :
    PyResult GenOutcome × RunStats :=
  if h : attempt < maxAttempts then
    match polls attempt with
    | .exc m => (.raised m, ⟨1, 0, 0, attempt⟩)
    | .data d =>
      if d.status = some (statusValue .READY) then
        match d.result with
        | none => (.raised renv.resultNoneExcMsg, ⟨1, 0, 0, attempt⟩)
        | some sample =>
          let r := route_handle_ready baseUrl req taskId sample renv
          (match r.res with
           | .ok img => .ok (.imageResult img)
           | .raised m => .raised m,
           ⟨1, r.downloadCalls, r.saveCalls, attempt⟩)
      else if d.status = some (statusValue .PENDING) then
        let cont := route_poll_loop maxAttempts statusModuleRepr baseUrl req
          taskId renv polls (attempt + 1)
        (cont.1, ⟨cont.2.pollsMade + 1, cont.2.downloadCalls,
          cont.2.saveCalls, cont.2.finalAttempt⟩)
      else
        match terminal_status_match d.status with
        | some _ =>
          match image_generation_response_dict RouteDictKey.fastapiStatusModule with
          | some p => (.ok (.plainResponse p.1 p.2 "text/plain"), ⟨1, 0, 0, attempt⟩)
          | none => (.raised statusModuleRepr, ⟨1, 0, 0, attempt⟩)
        | none =>
          (.raised (httpExceptionStr 500 ("Image generation failed: " ++ d.reprStr)),
           ⟨1, 0, 0, attempt⟩)
  else
    (.ok (.plainResponse 408 "Timeout waiting for image generation" "text/plain"),
     ⟨0, 0, 0, attempt⟩)
termination_by maxAttempts - attempt

/-- Body of the try block of the route generate_image (ai.py lines 59 -
163): submit, then poll from attempt 0. -/
def route_generate_image_inner (maxAttempts : Nat)
    (statusModuleRepr baseUrl : String) (req : FluxRequest)
    (submit : SubmitStep) (renv : RouteReadyEnv) (polls : Nat → PollStep) :
    PyResult GenOutcome × RunStats :=
  match start_image_generation submit with
  | .raised m => (.raised m, ⟨0, 0, 0, 0⟩)
  | .ok taskId =>
    route_poll_loop maxAttempts statusModuleRepr baseUrl req taskId renv polls 0

/-- The route generate_image (ai.py lines 36 - 170): the try body guarded
by the boundary handler, which converts any exception into a plain-text 500
response carrying the exception text. -/
def route_generate_image (maxAttempts : Nat)
    (statusModuleRepr baseUrl : String) (req : FluxRequest)
    (submit : SubmitStep) (renv : RouteReadyEnv) (polls : Nat → PollStep) :
    GenOutcome × RunStats :=
  match route_generate_image_inner maxAttempts statusModuleRepr baseUrl req
      submit renv polls with
  | (.ok v, st) => (v, st)
  | (.raised m, st) =>
    (.plainResponse 500 ("Error generating image: " ++ m) "text/plain", st)

/-- Environment outcomes for the Ready branch of the service: the message
raised when the sample URL is None, the download outcome, and the outcome
of the S3 upload as a function of the content type passed to it. -/
structure ServiceReadyEnv where
  urlNoneExcMsg : String
  download : DownloadStep
  upload : String → PyResult String

/-- Ready branch of the service (AIGenerator._handle_ready_status together
with _download_generated_image and _upload_to_s3, ai_generator.py lines 199
- 268): download the asset (HTTPException 500 on a non-200 response), take
the content type from the response headers with image/jpeg as fallback for
an absent or empty header, upload to storage, and return the ImageResult
built from the upload-result URL. -/
def service_handle_ready (req : FluxRequest) (taskId : String)
    (sample : Option String) (env : ServiceReadyEnv) : ReadyRun :=
  match sample with
  | none => ⟨.raised env.urlNoneExcMsg, 1, 0⟩
  | some url =>
    match env.download with
    | .exc m => ⟨.raised m, 1, 0⟩
    | .resp code ctype =>
      if code ≠ 200 then
        ⟨.raised (httpExceptionStr 500 ("Failed to download image from " ++ url)), 1, 0⟩
      else
        let contentType :=
          match ctype with
          | none => "image/jpeg"
          | some cs => if cs = "" then "image/jpeg" else cs
        match env.upload contentType with
        | .raised m => ⟨.raised m, 1, 1⟩
        | .ok upUrl => ⟨.ok ⟨taskId, req.prompt, req.model, upUrl⟩, 1, 1⟩

/-- Polling loop of the service (AIGenerator._poll_generation_status,
ai_generator.py lines 106 - 147). Identical state machine to the route
loop, except that the Ready branch reads the sample with a default empty
dict for a missing result key, and the terminal branch subscripts
STATUS_RESPONSES with the local status variable, which is the matched
status value, so the intended pair is found. -/
def service_poll_loop (maxAttempts : Nat) (req : FluxRequest)
    (taskId : String) (senv : ServiceReadyEnv) (polls : Nat → PollStep)
    (attempt : Nat) : PyResult GenOutcome × RunStats :=
  if h : attempt < maxAttempts then
    match polls attempt with
    | .exc m => (.raised m, ⟨1, 0, 0, attempt⟩)
    | .data d =>
      if d.status = some (statusValue .READY) then
        let sample : Option String :=
          match d.result with
          | none => none
          | some s2 => s2
        let r := service_handle_ready req taskId sample senv
        (match r.res with
         | .ok img => .ok (.imageResult img)
         | .raised m => .raised m,
         ⟨1, r.downloadCalls, r.saveCalls, attempt⟩)
      else if d.status = some (statusValue .PENDING) then
        let cont := service_poll_loop maxAttempts req taskId senv polls (attempt + 1)
        (cont.1, ⟨cont.2.pollsMade + 1, cont.2.downloadCalls,
          cont.2.saveCalls, cont.2.finalAttempt⟩)
      else
        match terminal_status_match d.status with
        | some st =>
          match STATUS_RESPONSES st with
          | some p => (.ok (.plainResponse p.1 p.2 "text/plain"), ⟨1, 0, 0, attempt⟩)
          | none => (.raised "KeyError", ⟨1, 0, 0, attempt⟩)
        | none =>
          (.raised (httpExceptionStr 500 ("Image generation failed: " ++ d.reprStr)),
           ⟨1, 0, 0, attempt⟩)
  else
    (.ok (.plainResponse 408 "Timeout waiting for image generation" "text/plain"),
     ⟨0, 0, 0, attempt⟩)
termination_by maxAttempts - attempt

/-- Body of the try block of AIGenerator.generate_image (ai_generator.py
lines 53 - 56): submit, then poll from attempt 0. -/
def service_generate_image_inner (maxAttempts : Nat) (req : FluxRequest)
    (submit : SubmitStep) (senv : ServiceReadyEnv) (polls : Nat → PollStep) :
    PyResult GenOutcome × RunStats :=
  match start_image_generation submit with
  | .raised m => (.raised m, ⟨0, 0, 0, 0⟩)
  | .ok taskId => service_poll_loop maxAttempts req taskId senv polls 0

/-- AIGenerator.generate_image (ai_generator.py lines 47 - 63): the try
body guarded by the boundary handler, which converts any exception into a
plain-text 500 response carrying the exception text. -/
def service_generate_image (maxAttempts : Nat) (req : FluxRequest)
    (submit : SubmitStep) (senv : ServiceReadyEnv) (polls : Nat → PollStep) :
    GenOutcome × RunStats :=
  match service_generate_image_inner maxAttempts req submit senv polls with
  | (.ok v, st) => (v, st)
  | (.raised m, st) =>
    (.plainResponse 500 ("Error generating image: " ++ m) "text/plain", st)

/-- Allowed upload extensions (core/config.py line 35). -/
def ALLOWED_EXTENSIONS : List String := ["png", "jpg", "jpeg", "gif", "mp4", "webp"]

/-- Python lowercase over the character list (sufficient for the ASCII
extensions compared here). -/
def py_lower (v : String) : String := String.mk (v.data.map Char.toLower)

/-- Python membership test of a character in a string. -/
def py_contains_char (v : String) (c : Char) : Bool := v.data.contains c

/-- Python filename.rsplit with one dot split, index 1: the text after the
last dot. Only evaluated by the source when the filename contains a dot
(and returned unchanged otherwise, a case the source never reaches). -/
def rsplit_ext (filename : String) : String :=
  if filename.data.contains '.' then
    String.mk ((filename.data.reverse.takeWhile (fun c => c != '.')).reverse)
  else filename

/-- LocalImageUploader.is_valid_file (image_uploader.py lines 13 - 19): the
filename contains a dot and its lowercased extension is allowed. -/
def is_valid_file (filename : String) : Bool :=
  py_contains_char filename '.' &&
    ALLOWED_EXTENSIONS.contains (py_lower (rsplit_ext filename))

/-- LocalImageUploader.generate_unique_filename (image_uploader.py lines
21 - 24): the image id followed by the lowercased extension of the original
filename. -/
def generate_unique_filename (imageId : String) (filename : String) : String :=
  imageId ++ "." ++ py_lower (rsplit_ext filename)

/-- LocalImageUploader.get_file_path (image_uploader.py lines 30 - 32):
the upload directory joined with the unique filename. -/
def get_file_path (uploadDir uniqueFilename : String) : String :=
  uploadDir ++ "/" ++ uniqueFilename

/-- Outcome of LocalImageUploader.save_file: clean success, an exception
raised after the target file came into existence (a partial write), or an
exception raised before any file was created. -/
inductive SaveOutcome where
  | ok
  | excCreated (msg : String)
  | excNotCreated (msg : String)
deriving DecidableEq, Repr

/-- Environment outcomes for LocalImageUploader.upload_image: the optional
exception of the mkdir step, the outcome of parsing the metadata id as a
UUID (the canonical string on success), the save outcome, and the optional
exception of the model-validation and session steps. -/
structure LocalUploadEnv where
  mkdirExc : Option String
  uuidParse : PyResult String
  save : SaveOutcome
  persistExc : Option String
deriving DecidableEq, Repr

/-- Set insertion into the file system, modelled as a list of paths. -/
def fs_insert (p : String) (fs : List String) : List String :=
  if p ∈ fs then fs else p :: fs

/-- File deletion: Path.unlink guarded by Path.exists. -/
def fs_remove (p : String) (fs : List String) : List String :=
  fs.filter (fun q => q != p)

/-- Cleanup of the except branch of upload_image (image_uploader.py lines
82 - 85): when the target path was determined and exists, delete it. -/
def upload_cleanup (filePath : Option String) (fs : List String) : List String :=
  match filePath with
  | none => fs
  | some p => fs_remove p fs

/-- Error raised out of upload_image (image_uploader.py lines 87 - 90): an
HTTPException with status 500 whose detail wraps the text of the original
exception. -/
def upload_error (msg : String) : Nat × String :=
  (500, "Error uploading file: " ++ msg)

/-- Upload result of the local uploader (image_uploader.py lines 75 - 80). -/
structure UploadResultL where
  url : String
  provider_id : String
  provider : String
deriving DecidableEq, Repr

/-- LocalImageUploader.upload_image (image_uploader.py lines 43 - 90) over
an explicit file-system state: validate the extension (an invalid one
raises HTTPException 400 inside the try), ensure the upload directory,
parse the metadata id, determine the unique filename and target path, save
the file, build the URL from the base URL and the unique filename, persist
the Image row, and return the result. Any exception is caught by the except
branch, which deletes the target file when its path was determined and it
exists, and re-raises HTTPException 500 wrapping the original text. -/
def upload_image (baseUrl uploadDir : String) (fs : List String)
    (filename : String) (env : LocalUploadEnv) :
    Except (Nat × String) UploadResultL × List String :=
  if is_valid_file filename then
    match env.mkdirExc with
    | some m => (.error (upload_error m), upload_cleanup none fs)
    | none =>
      match env.uuidParse with
      | .raised m => (.error (upload_error m), upload_cleanup none fs)
      | .ok imageId =>
        let uniqueFilename := generate_unique_filename imageId filename
        let filePath := get_file_path uploadDir uniqueFilename
        match env.save with
        | .excNotCreated m =>
          (.error (upload_error m), upload_cleanup (some filePath) fs)
        | .excCreated m =>
          (.error (upload_error m), upload_cleanup (some filePath) (fs_insert filePath fs))
        | .ok =>
          let fs1 := fs_insert filePath fs
          let url := baseUrl ++ "/uploads/" ++ uniqueFilename
          match env.persistExc with
          | some m => (.error (upload_error m), upload_cleanup (some filePath) fs1)
          | none => (.ok ⟨url, uniqueFilename, "local"⟩, fs1)
  else
    (.error (upload_error (httpExceptionStr 400 "File type not allowed")),
     upload_cleanup none fs)

/-- Default maximum poll attempt count (core/config.py line 135). -/
def IMAGE_GENERATION_POLL_MAX_ATTEMPTS : Nat := 30

/-- Read a key of a JSON value that is expected to be a dict. -/
def objGetV (v : JValue) (k : String) : Option JValue :=
  match v with
  | .obj fields => objGet fields k
  | _ => none

/-- Concatenation of the per-event emissions over an event-list split. -/
theorem stream_content_lines_append (xs ys : List StreamEvent) :
    stream_content_lines (xs ++ ys) =
      stream_content_lines xs ++ stream_content_lines ys := by
  induction xs with
  | nil => simp [stream_content_lines]
  | cons e es ih => simp [stream_content_lines, ih]

/-- One Pending observation makes the route loop continue at the next
attempt, adding one to the poll count and keeping every other statistic of
the continuation. -/
theorem route_poll_loop_pending_step (maxAttempts : Nat)
    (statusModuleRepr baseUrl : String) (req : FluxRequest) (taskId : String)
    (renv : RouteReadyEnv) (polls : Nat → PollStep) (attempt : Nat)
    (h : attempt < maxAttempts) (d : ResultData)
    (hd : polls attempt = .data d)
    (hp : d.status = some (statusValue .PENDING)) :
    route_poll_loop maxAttempts statusModuleRepr baseUrl req taskId renv polls attempt =
      ((route_poll_loop maxAttempts statusModuleRepr baseUrl req taskId renv polls (attempt + 1)).1,
       ⟨(route_poll_loop maxAttempts statusModuleRepr baseUrl req taskId renv polls (attempt + 1)).2.pollsMade + 1,
        (route_poll_loop maxAttempts statusModuleRepr baseUrl req taskId renv polls (attempt + 1)).2.downloadCalls,
        (route_poll_loop maxAttempts statusModuleRepr baseUrl req taskId renv polls (attempt + 1)).2.saveCalls,
        (route_poll_loop maxAttempts statusModuleRepr baseUrl req taskId renv polls (attempt + 1)).2.finalAttempt⟩) := by
  rw [route_poll_loop]
  simp [h, hd, hp, statusValue]

/-- One Pending observation makes the service loop continue at the next
attempt, adding one to the poll count and keeping every other statistic of
the continuation. -/
theorem service_poll_loop_pending_step (maxAttempts : Nat) (req : FluxRequest)
    (taskId : String) (senv : ServiceReadyEnv) (polls : Nat → PollStep)
    (attempt : Nat) (h : attempt < maxAttempts) (d : ResultData)
    (hd : polls attempt = .data d)
    (hp : d.status = some (statusValue .PENDING)) :
    service_poll_loop maxAttempts req taskId senv polls attempt =
      ((service_poll_loop maxAttempts req taskId senv polls (attempt + 1)).1,
       ⟨(service_poll_loop maxAttempts req taskId senv polls (attempt + 1)).2.pollsMade + 1,
        (service_poll_loop maxAttempts req taskId senv polls (attempt + 1)).2.downloadCalls,
        (service_poll_loop maxAttempts req taskId senv polls (attempt + 1)).2.saveCalls,
        (service_poll_loop maxAttempts req taskId senv polls (attempt + 1)).2.finalAttempt⟩) := by
  rw [service_poll_loop]
  simp [h, hd, hp, statusValue]

/-- Running the route loop over j consecutive Pending observations adds j
to the poll count and otherwise behaves as the loop started j attempts
later. -/
theorem route_poll_loop_pending_run (maxAttempts : Nat)
    (smr baseUrl : String) (req : FluxRequest) (taskId : String)
    (renv : RouteReadyEnv) (polls : Nat → PollStep) :
    ∀ j attempt,
      (∀ i, attempt ≤ i → i < attempt + j →
        ∃ d, polls i = PollStep.data d ∧ d.status = some (statusValue .PENDING)) →
      attempt + j ≤ maxAttempts →
      route_poll_loop maxAttempts smr baseUrl req taskId renv polls attempt =
        ((route_poll_loop maxAttempts smr baseUrl req taskId renv polls (attempt + j)).1,
         ⟨(route_poll_loop maxAttempts smr baseUrl req taskId renv polls (attempt + j)).2.pollsMade + j,
          (route_poll_loop maxAttempts smr baseUrl req taskId renv polls (attempt + j)).2.downloadCalls,
          (route_poll_loop maxAttempts smr baseUrl req taskId renv polls (attempt + j)).2.saveCalls,
          (route_poll_loop maxAttempts smr baseUrl req taskId renv polls (attempt + j)).2.finalAttempt⟩) := by
  intro j
  induction j with
  | zero =>
    intro attempt hpend hle
    simp
  | succ j ih =>
    intro attempt hpend hle
    obtain ⟨d, hd, hp⟩ := hpend attempt (le_refl _) (by omega)
    rw [route_poll_loop_pending_step maxAttempts smr baseUrl req taskId renv
      polls attempt (by omega) d hd hp]
    rw [ih (attempt + 1) (fun i h1 h2 => hpend i (by omega) (by omega)) (by omega)]
    have hshift : attempt + 1 + j = attempt + (j + 1) := by omega
    rw [hshift]
    simp [Nat.add_assoc]

/-- Running the service loop over j consecutive Pending observations adds j
to the poll count and otherwise behaves as the loop started j attempts
later. -/
theorem service_poll_loop_pending_run (maxAttempts : Nat)
    (req : FluxRequest) (taskId : String) (senv : ServiceReadyEnv)
    (polls : Nat → PollStep) :
    ∀ j attempt,
      (∀ i, attempt ≤ i → i < attempt + j →
        ∃ d, polls i = PollStep.data d ∧ d.status = some (statusValue .PENDING)) →
      attempt + j ≤ maxAttempts →
      service_poll_loop maxAttempts req taskId senv polls attempt =
        ((service_poll_loop maxAttempts req taskId senv polls (attempt + j)).1,
         ⟨(service_poll_loop maxAttempts req taskId senv polls (attempt + j)).2.pollsMade + j,
          (service_poll_loop maxAttempts req taskId senv polls (attempt + j)).2.downloadCalls,
          (service_poll_loop maxAttempts req taskId senv polls (attempt + j)).2.saveCalls,
          (service_poll_loop maxAttempts req taskId senv polls (attempt + j)).2.finalAttempt⟩) := by
  intro j
  induction j with
  | zero =>
    intro attempt hpend hle
    simp
  | succ j ih =>
    intro attempt hpend hle
    obtain ⟨d, hd, hp⟩ := hpend attempt (le_refl _) (by omega)
    rw [service_poll_loop_pending_step maxAttempts req taskId senv
      polls attempt (by omega) d hd hp]
    rw [ih (attempt + 1) (fun i h1 h2 => hpend i (by omega) (by omega)) (by omega)]
    have hshift : attempt + 1 + j = attempt + (j + 1) := by omega
    rw [hshift]
    simp [Nat.add_assoc]

/-- C2: for every polling sequence that returns Pending on every poll up to
the configured maximum attempt count, both the route poller and the service
poller return the plain-text 408 response with body Timeout waiting for
image generation as a normal value (no exception), the attempt counter
equals the configured maximum when the loop exits, and the configured
default maximum is 30. -/
theorem C2_pending_exhaustion_timeout (maxAttempts : Nat)
    (smr baseUrl : String) (req : FluxRequest) (taskId : String)
    (renv : RouteReadyEnv) (senv : ServiceReadyEnv) (polls : Nat → PollStep)
    (hpend : ∀ i, i < maxAttempts →
      ∃ d, polls i = PollStep.data d ∧ d.status = some (statusValue .PENDING)) :
    route_poll_loop maxAttempts smr baseUrl req taskId renv polls 0 =
      (.ok (.plainResponse 408 "Timeout waiting for image generation" "text/plain"),
       ⟨maxAttempts, 0, 0, maxAttempts⟩) ∧
    service_poll_loop maxAttempts req taskId senv polls 0 =
      (.ok (.plainResponse 408 "Timeout waiting for image generation" "text/plain"),
       ⟨maxAttempts, 0, 0, maxAttempts⟩) ∧
    IMAGE_GENERATION_POLL_MAX_ATTEMPTS = 30 := by
  have hbase : route_poll_loop maxAttempts smr baseUrl req taskId renv polls maxAttempts =
      (.ok (.plainResponse 408 "Timeout waiting for image generation" "text/plain"),
       ⟨0, 0, 0, maxAttempts⟩) := by
    rw [route_poll_loop]
    simp
  have hbase2 : service_poll_loop maxAttempts req taskId senv polls maxAttempts =
      (.ok (.plainResponse 408 "Timeout waiting for image generation" "text/plain"),
       ⟨0, 0, 0, maxAttempts⟩) := by
    rw [service_poll_loop]
    simp
  refine ⟨?_, ?_, rfl⟩
  · rw [route_poll_loop_pending_run maxAttempts smr baseUrl req taskId renv polls
      maxAttempts 0 (fun i h1 h2 => hpend i (by omega)) (by omega)]
    simp [hbase]
  · rw [service_poll_loop_pending_run maxAttempts req taskId senv polls
      maxAttempts 0 (fun i h1 h2 => hpend i (by omega)) (by omega)]
    simp [hbase2]

/-- Witness for C2 at a concrete two-attempt configuration with an
all-Pending provider. -/
theorem C2_pending_exhaustion_timeout_witness :
    route_poll_loop 2 "m" "http://localhost:9000" ⟨"p", "flux-pro-1.1-ultra", "jpeg"⟩
        "t" ⟨"rA", "rB", .resp 200 none, none, none, none⟩
        (fun _ => PollStep.data ⟨some "Pending", none, "r"⟩) 0 =
      (.ok (.plainResponse 408 "Timeout waiting for image generation" "text/plain"),
       ⟨2, 0, 0, 2⟩) :=
  (C2_pending_exhaustion_timeout 2 "m" "http://localhost:9000"
    ⟨"p", "flux-pro-1.1-ultra", "jpeg"⟩ "t"
    ⟨"rA", "rB", .resp 200 none, none, none, none⟩
    ⟨"sA", .resp 200 none, fun _ => .ok "u"⟩
    (fun _ => PollStep.data ⟨some "Pending", none, "r"⟩)
    (fun i _ => ⟨⟨some "Pending", none, "r"⟩, rfl, rfl⟩)).1

/-- C3: for every polling sequence made of k Pending observations (k
strictly below the attempt budget) followed by a Ready observation, both
pollers exit the loop on that first Ready, poll exactly k + 1 times (no
further polls afterward), return the result the Ready branch derives from
exactly that Ready payload, and exit with the attempt counter equal to k:
the counter was incremented only by the Pending observations, not by the
terminal one. -/
theorem C3_first_ready_exits (maxAttempts k : Nat) (smr baseUrl : String)
    (req : FluxRequest) (taskId : String) (renv : RouteReadyEnv)
    (senv : ServiceReadyEnv) (polls : Nat → PollStep) (d : ResultData)
    (hk : k < maxAttempts)
    (hpend : ∀ i, i < k →
      ∃ dp, polls i = PollStep.data dp ∧ dp.status = some (statusValue .PENDING))
    (hd : polls k = PollStep.data d)
    (hready : d.status = some (statusValue .READY)) :
    route_poll_loop maxAttempts smr baseUrl req taskId renv polls 0 =
      (match d.result with
       | none => (.raised renv.resultNoneExcMsg, ⟨k + 1, 0, 0, k⟩)
       | some sample =>
         ((match (route_handle_ready baseUrl req taskId sample renv).res with
           | .ok img => .ok (.imageResult img)
           | .raised m => .raised m),
          ⟨k + 1, (route_handle_ready baseUrl req taskId sample renv).downloadCalls,
           (route_handle_ready baseUrl req taskId sample renv).saveCalls, k⟩)) ∧
    service_poll_loop maxAttempts req taskId senv polls 0 =
      ((match (service_handle_ready req taskId
            (match d.result with | none => none | some s2 => s2) senv).res with
        | .ok img => .ok (.imageResult img)
        | .raised m => .raised m),
       ⟨k + 1, (service_handle_ready req taskId
            (match d.result with | none => none | some s2 => s2) senv).downloadCalls,
        (service_handle_ready req taskId
            (match d.result with | none => none | some s2 => s2) senv).saveCalls, k⟩) := by
  have hstep : route_poll_loop maxAttempts smr baseUrl req taskId renv polls k =
      (match d.result with
       | none => (.raised renv.resultNoneExcMsg, ⟨1, 0, 0, k⟩)
       | some sample =>
         ((match (route_handle_ready baseUrl req taskId sample renv).res with
           | .ok img => .ok (.imageResult img)
           | .raised m => .raised m),
          ⟨1, (route_handle_ready baseUrl req taskId sample renv).downloadCalls,
           (route_handle_ready baseUrl req taskId sample renv).saveCalls, k⟩)) := by
    rw [route_poll_loop]
    simp only [hk, dite_true, dif_pos, hd, hready]
    cases d.result <;> simp
  have hstep2 : service_poll_loop maxAttempts req taskId senv polls k =
      ((match (service_handle_ready req taskId
            (match d.result with | none => none | some s2 => s2) senv).res with
        | .ok img => .ok (.imageResult img)
        | .raised m => .raised m),
       ⟨1, (service_handle_ready req taskId
            (match d.result with | none => none | some s2 => s2) senv).downloadCalls,
        (service_handle_ready req taskId
            (match d.result with | none => none | some s2 => s2) senv).saveCalls, k⟩) := by
    rw [service_poll_loop]
    simp only [hk, dite_true, dif_pos, hd, hready]
    simp
  constructor
  · rw [route_poll_loop_pending_run maxAttempts smr baseUrl req taskId renv polls
      k 0 (fun i h1 h2 => hpend i (by omega)) (by omega)]
    simp only [Nat.zero_add]
    rw [hstep]
    cases d.result <;> simp [Nat.add_comm]
  · rw [service_poll_loop_pending_run maxAttempts req taskId senv polls
      k 0 (fun i h1 h2 => hpend i (by omega)) (by omega)]
    simp only [Nat.zero_add]
    rw [hstep2]
    simp [Nat.add_comm]

/-- Witness for C3 at a concrete sequence of one Pending then Ready, inside
a budget of three attempts. -/
theorem C3_first_ready_exits_witness :
    route_poll_loop 3 "m" "http://localhost:9000" ⟨"p", "flux-pro-1.1-ultra", "jpeg"⟩
        "t" ⟨"rA", "rB", .resp 200 none, none, none, none⟩
        (fun i => if i = 0 then PollStep.data ⟨some "Pending", none, "r0"⟩
          else PollStep.data ⟨some "Ready", some (some "http://img/x.jpg"), "r1"⟩) 0 =
      (.ok (.imageResult ⟨"t", "p", "flux-pro-1.1-ultra",
        "http://localhost:9000" ++ "/uploads/" ++ "t" ++ "." ++ "jpeg"⟩),
       ⟨2, 1, 1, 1⟩) := by
  have h := (C3_first_ready_exits 3 1 "m" "http://localhost:9000"
    ⟨"p", "flux-pro-1.1-ultra", "jpeg"⟩ "t"
    ⟨"rA", "rB", .resp 200 none, none, none, none⟩
    ⟨"sA", .resp 200 none, fun _ => .ok "u"⟩
    (fun i => if i = 0 then PollStep.data ⟨some "Pending", none, "r0"⟩
      else PollStep.data ⟨some "Ready", some (some "http://img/x.jpg"), "r1"⟩)
    ⟨some "Ready", some (some "http://img/x.jpg"), "r1"⟩
    (by omega)
    (fun i hi => by
      have : i = 0 := by omega
      subst this
      exact ⟨⟨some "Pending", none, "r0"⟩, rfl, rfl⟩)
    (by simp)
    rfl).1
  rw [h]
  simp [route_handle_ready]

/-- C1 (failing input): when the provider answers Request Moderated on the
first poll, the route endpoint does not return the mapped pair 400 with
body Request was moderated due to content policy. Its terminal branch
subscripts the response dict with the name status, which denotes the
imported fastapi status module, so the lookup raises KeyError and the
boundary handler turns it into a 500 whose body wraps the repr of the
module. The service implementation of the same loop, which subscripts with
the matched status value, returns the intended 400 pair. In both runs no
download and no save or upload call is made, and the loop exits on the
first poll. -/
theorem C1_route_terminal_lookup_code_bug :
    route_generate_image 30 "module fastapi.status from site-packages"
        "http://localhost:9000" ⟨"a red fox", "flux-pro-1.1-ultra", "jpeg"⟩
        (.resp (some "task-1") "resp-repr")
        ⟨"rA", "rB", .resp 200 none, none, none, none⟩
        (fun _ => PollStep.data ⟨some "Request Moderated", none, "poll-repr"⟩) =
      (.plainResponse 500
        ("Error generating image: " ++ "module fastapi.status from site-packages")
        "text/plain",
       ⟨1, 0, 0, 0⟩) ∧
    service_generate_image 30 ⟨"a red fox", "flux-pro-1.1-ultra", "jpeg"⟩
        (.resp (some "task-1") "resp-repr")
        ⟨"sA", .resp 200 none, fun _ => .ok "u"⟩
        (fun _ => PollStep.data ⟨some "Request Moderated", none, "poll-repr"⟩) =
      (.plainResponse 400 "Request was moderated due to content policy" "text/plain",
       ⟨1, 0, 0, 0⟩) := by
  constructor
  · simp [route_generate_image, route_generate_image_inner, start_image_generation,
      route_poll_loop, terminal_status_match, statusValue,
      image_generation_response_dict, STATUS_RESPONSES]
  · simp [service_generate_image, service_generate_image_inner, start_image_generation,
      service_poll_loop, terminal_status_match, statusValue, STATUS_RESPONSES]

/-- C6: whenever the try body of generate-image raises anywhere in the
pipeline (submission, polling, download, upload or save, persistence), the
boundary handler of the route and of the service returns a plain-text 500
response whose body carries the text of the exception, with the effect
counters of the partial run preserved; the raised exception never escapes
as an exception. -/
theorem C6_boundary_catches_all (maxAttempts : Nat)
    (smr baseUrl : String) (req : FluxRequest) (submit : SubmitStep)
    (renv : RouteReadyEnv) (senv : ServiceReadyEnv) (polls : Nat → PollStep) :
    (∀ m st, route_generate_image_inner maxAttempts smr baseUrl req submit renv polls =
        (.raised m, st) →
      route_generate_image maxAttempts smr baseUrl req submit renv polls =
        (.plainResponse 500 ("Error generating image: " ++ m) "text/plain", st)) ∧
    (∀ m st, service_generate_image_inner maxAttempts req submit senv polls =
        (.raised m, st) →
      service_generate_image maxAttempts req submit senv polls =
        (.plainResponse 500 ("Error generating image: " ++ m) "text/plain", st)) := by
  constructor
  · intro m st h
    rw [route_generate_image, h]
  · intro m st h
    rw [service_generate_image, h]

/-- Witness for C6 at a concrete run whose download step raises. -/
theorem C6_boundary_catches_all_witness :
    route_generate_image 30 "m" "http://localhost:9000"
        ⟨"p", "flux-pro-1.1-ultra", "jpeg"⟩ (.resp (some "t") "r")
        ⟨"rA", "rB", .exc "connection reset", none, none, none⟩
        (fun _ => PollStep.data ⟨some "Ready", some (some "http://img/x.jpg"), "rd"⟩) =
      (.plainResponse 500 ("Error generating image: " ++ "connection reset")
        "text/plain", ⟨1, 1, 0, 0⟩) :=
  (C6_boundary_catches_all 30 "m" "http://localhost:9000"
    ⟨"p", "flux-pro-1.1-ultra", "jpeg"⟩ (.resp (some "t") "r")
    ⟨"rA", "rB", .exc "connection reset", none, none, none⟩
    ⟨"sA", .resp 200 none, fun _ => .ok "u"⟩
    (fun _ => PollStep.data ⟨some "Ready", some (some "http://img/x.jpg"), "rd"⟩)).1
    "connection reset" ⟨1, 1, 0, 0⟩
    (by
      simp [route_generate_image_inner, start_image_generation, route_poll_loop,
        statusValue, route_handle_ready])

/-- C7: the submission step, shared by the route and the service, fails if
and only if the response body carries no task identifier: it raises
HTTPException 500 wrapping the body exactly when the id field is absent or
the empty string, and returns exactly the carried identifier otherwise. -/
theorem C7_submit_fails_iff_no_id (id : Option String) (reprStr : String) :
    (start_image_generation (.resp id reprStr) =
        .raised (httpExceptionStr 500 ("Failed to start image generation: " ++ reprStr)) ↔
      id = none ∨ id = some "") ∧
    (∀ tid, id = some tid → tid ≠ "" →
      start_image_generation (.resp id reprStr) = .ok tid) := by
  constructor
  · cases id with
    | none => simp [start_image_generation]
    | some tid =>
      by_cases h : tid = "" <;> simp [start_image_generation, h]
  · intro tid hid htid
    subst hid
    simp [start_image_generation, htid]

/-- Witness for C7 at a present, nonempty identifier and at an empty one. -/
theorem C7_submit_fails_iff_no_id_witness :
    start_image_generation (.resp (some "task-9") "body") = .ok "task-9" ∧
    start_image_generation (.resp (some "") "body") =
      .raised (httpExceptionStr 500 ("Failed to start image generation: " ++ "body")) :=
  ⟨(C7_submit_fails_iff_no_id (some "task-9") "body").2 "task-9" rfl (by decide),
   (C7_submit_fails_iff_no_id (some "") "body").1.mpr (Or.inr rfl)⟩

/-- C8: once the validation, directory and id steps have succeeded — so the
target file path is determined — any failing local upload (during the save
or during the persistence step) deletes the file at that path before the
error is surfaced: the final file-system state does not contain the path.
A successful upload leaves the file in place and returns the URL derived
from the base URL and the unique filename. -/
theorem C8_local_upload_no_orphan (baseUrl uploadDir : String)
    (fs : List String) (filename : String) (env : LocalUploadEnv)
    (imageId : String)
    (hval : is_valid_file filename = true)
    (hmk : env.mkdirExc = none)
    (huuid : env.uuidParse = .ok imageId) :
    (∀ e fs2, upload_image baseUrl uploadDir fs filename env = (.error e, fs2) →
      get_file_path uploadDir (generate_unique_filename imageId filename) ∉ fs2) ∧
    (∀ r fs2, upload_image baseUrl uploadDir fs filename env = (.ok r, fs2) →
      get_file_path uploadDir (generate_unique_filename imageId filename) ∈ fs2 ∧
      r.url = baseUrl ++ "/uploads/" ++ generate_unique_filename imageId filename) := by
  obtain ⟨mkdirExc, uuidParse, save, persistExc⟩ := env
  simp only at hmk huuid
  subst hmk
  subst huuid
  have hrem : ∀ l : List String,
      get_file_path uploadDir (generate_unique_filename imageId filename) ∉
        fs_remove (get_file_path uploadDir (generate_unique_filename imageId filename)) l := by
    intro l
    simp [fs_remove, List.mem_filter]
  have hins : ∀ l : List String,
      get_file_path uploadDir (generate_unique_filename imageId filename) ∈
        fs_insert (get_file_path uploadDir (generate_unique_filename imageId filename)) l := by
    intro l
    by_cases hp : get_file_path uploadDir (generate_unique_filename imageId filename) ∈ l <;>
      simp [fs_insert, hp]
  constructor
  · intro e fs2 h
    cases save with
    | excNotCreated m =>
      simp [upload_image, hval, upload_cleanup] at h
      rw [← h.2]
      exact hrem fs
    | excCreated m =>
      simp [upload_image, hval, upload_cleanup] at h
      rw [← h.2]
      exact hrem _
    | ok =>
      cases persistExc with
      | some m =>
        simp [upload_image, hval, upload_cleanup] at h
        rw [← h.2]
        exact hrem _
      | none =>
        simp [upload_image, hval] at h
  · intro r fs2 h
    cases save with
    | excNotCreated m => simp [upload_image, hval] at h
    | excCreated m => simp [upload_image, hval] at h
    | ok =>
      cases persistExc with
      | some m => simp [upload_image, hval] at h
      | none =>
        simp [upload_image, hval] at h
        rw [← h.2]
        refine ⟨hins fs, ?_⟩
        rw [← h.1]

/-- Witness for C8 at a concrete successful upload. -/
theorem C8_local_upload_no_orphan_witness :
    get_file_path "/up" (generate_unique_filename "123" "img.PNG") ∈
      fs_insert (get_file_path "/up" (generate_unique_filename "123" "img.PNG")) [] ∧
    (UploadResultL.mk ("http://b" ++ "/uploads/" ++ generate_unique_filename "123" "img.PNG")
      (generate_unique_filename "123" "img.PNG") "local").url =
      "http://b" ++ "/uploads/" ++ generate_unique_filename "123" "img.PNG" :=
  (C8_local_upload_no_orphan "http://b" "/up" [] "img.PNG"
    ⟨none, .ok "123", .ok, none⟩ "123" (by decide) rfl rfl).2
    ⟨"http://b" ++ "/uploads/" ++ generate_unique_filename "123" "img.PNG",
     generate_unique_filename "123" "img.PNG", "local"⟩
    (fs_insert (get_file_path "/up" (generate_unique_filename "123" "img.PNG")) [])
    (by rfl)

/-- C9: a local upload whose filename has no dot or whose lowercased
extension is outside the allow-list writes no file (the file-system state
is returned unchanged) and surfaces an HTTPException with status 500, not
400: the inner 400 File type not allowed exception is caught by the generic
handler and re-wrapped into a 500 whose detail embeds the original
message. -/
theorem C9_invalid_extension_rewrapped_500 (baseUrl uploadDir : String)
    (fs : List String) (filename : String) (env : LocalUploadEnv)
    (hbad : py_contains_char filename '.' = false ∨
      ALLOWED_EXTENSIONS.contains (py_lower (rsplit_ext filename)) = false) :
    upload_image baseUrl uploadDir fs filename env =
      (.error (500, "Error uploading file: " ++ httpExceptionStr 400 "File type not allowed"),
       fs) := by
  have hval : is_valid_file filename = false := by
    cases hbad with
    | inl h =>
      unfold is_valid_file
      rw [h]
      simp
    | inr h =>
      unfold is_valid_file
      rw [h]
      simp
  simp [upload_image, hval, upload_cleanup, upload_error]

/-- Witness for C9 at a concrete disallowed extension. -/
theorem C9_invalid_extension_rewrapped_500_witness :
    upload_image "http://b" "/up" ["keep"] "file.txt" ⟨none, .ok "id1", .ok, none⟩ =
      (.error (500, "Error uploading file: " ++ httpExceptionStr 400 "File type not allowed"),
       ["keep"]) :=
  C9_invalid_extension_rewrapped_500 "http://b" "/up" ["keep"] "file.txt"
    ⟨none, .ok "id1", .ok, none⟩ (Or.inr (by decide))

/-- C10: for every dict node that inject_attributes processes successfully,
the attrs entry of the output is forced to the fixed value determined by
the node type — heading nodes get level 1 and left alignment, paragraph
nodes get left alignment, codeBlock nodes get the python language,
orderedList nodes get start 1 — overwriting whatever attrs the input
carried, and the same rewriting is applied recursively to every child of
the content list when one is present. -/
theorem C10_inject_attributes_forces_attrs (fields : List (String × JValue)) (out : JValue)
    (h : inject_attributes (.obj fields) = some out) :
    (objGet fields "type" = some (.s "heading") → objGetV out "attrs" = some headingAttrs) ∧
    (objGet fields "type" = some (.s "paragraph") → objGetV out "attrs" = some paragraphAttrs) ∧
    (objGet fields "type" = some (.s "codeBlock") → objGetV out "attrs" = some codeBlockAttrs) ∧
    (objGet fields "type" = some (.s "orderedList") → objGetV out "attrs" = some orderedListAttrs) ∧
    (∀ items, objGet fields "content" = some (.arr items) →
      ∃ items2, inject_attributes_list items = some items2 ∧
        objGetV out "content" = some (.arr items2)) := by
  rw [inject_attributes] at h
  split at h
  next => exact absurd h (by simp)
  next t hty =>
  split at h
  next => exact absurd h (by simp)
  next fields1 hstep =>
  have key : ∃ rest, out = JValue.obj rest ∧
      objGet rest "attrs" = objGet fields1 "attrs" ∧
      (∀ items, objGet fields1 "content" = some (.arr items) →
        ∃ items2, inject_attributes_list items = some items2 ∧
          objGet rest "content" = some (.arr items2)) := by
    split at h
    next items hcont =>
      cases hil : inject_attributes_list items with
      | none => rw [hil] at h; exact absurd h (by simp)
      | some items2 =>
        rw [hil] at h
        injection h with h
        refine ⟨objSet fields1 "content" (.arr items2), h.symm, ?_, ?_⟩
        · exact objGet_objSet_ne _ _ _ _ (by decide)
        · intro items3 hcont3
          rw [hcont] at hcont3
          injection hcont3 with hcont3
          injection hcont3 with hcont3
          subst hcont3
          exact ⟨items2, hil, objGet_objSet_eq _ _ _⟩
    next sv hcont =>
      split at h
      next hsv =>
        injection h with h
        refine ⟨objSet fields1 "content" (.arr []), h.symm, ?_, ?_⟩
        · exact objGet_objSet_ne _ _ _ _ (by decide)
        · intro items3 hcont3
          rw [hcont] at hcont3
          injection hcont3 with hcont3
          exact absurd hcont3 (by simp)
      next hsv => exact absurd h (by simp)
    next gfields hcont =>
      split at h
      next =>
        injection h with h
        refine ⟨objSet fields1 "content" (.arr []), h.symm, ?_, ?_⟩
        · exact objGet_objSet_ne _ _ _ _ (by decide)
        · intro items3 hcont3
          rw [hcont] at hcont3
          injection hcont3 with hcont3
          exact absurd hcont3 (by simp)
      next => exact absurd h (by simp)
    next => exact absurd h (by simp)
    next hcont =>
      injection h with h
      refine ⟨fields1, h.symm, rfl, ?_⟩
      intro items3 hcont3
      rw [hcont] at hcont3
      exact absurd hcont3 (by simp)
  obtain ⟨rest, hout, hattrs, hcontent⟩ := key
  subst hout
  refine ⟨?_, ?_, ?_, ?_, ?_⟩
  · intro hty2
    rw [hty] at hty2
    injection hty2 with hty2
    subst hty2
    have hs : attr_step (JValue.s "heading") fields = some (objSet fields "attrs" headingAttrs) := by
      simp [attr_step, attr_step_str]
    rw [hs] at hstep
    injection hstep with hstep
    subst hstep
    simp only [objGetV]
    rw [hattrs, objGet_objSet_eq]
  · intro hty2
    rw [hty] at hty2
    injection hty2 with hty2
    subst hty2
    have hs : attr_step (JValue.s "paragraph") fields = some (objSet fields "attrs" paragraphAttrs) := by
      simp [attr_step, attr_step_str]
    rw [hs] at hstep
    injection hstep with hstep
    subst hstep
    simp only [objGetV]
    rw [hattrs, objGet_objSet_eq]
  · intro hty2
    rw [hty] at hty2
    injection hty2 with hty2
    subst hty2
    have hs : attr_step (JValue.s "codeBlock") fields = some (objSet fields "attrs" codeBlockAttrs) := by
      simp [attr_step, attr_step_str]
    rw [hs] at hstep
    injection hstep with hstep
    subst hstep
    simp only [objGetV]
    rw [hattrs, objGet_objSet_eq]
  · intro hty2
    rw [hty] at hty2
    injection hty2 with hty2
    subst hty2
    have hs : attr_step (JValue.s "orderedList") fields = some (objSet fields "attrs" orderedListAttrs) := by
      simp [attr_step, attr_step_str]
    rw [hs] at hstep
    injection hstep with hstep
    subst hstep
    simp only [objGetV]
    rw [hattrs, objGet_objSet_eq]
  · intro items hcontO
    have hcf : objGet fields1 "content" = objGet fields "content" :=
      attr_step_objGet_other t fields fields1 "content" (by decide) (by decide) (by decide) hstep
    have := hcontent items (by rw [hcf, hcontO])
    simpa [objGetV] using this

/-- Witness for C10 at a concrete heading node carrying model-produced
attrs that the rewriting overwrites. -/
theorem C10_inject_attributes_forces_attrs_witness :
    objGetV (JValue.obj [("type", JValue.s "heading"), ("attrs", headingAttrs),
        ("content", JValue.arr [JValue.obj [("type", JValue.s "text"),
          ("text", JValue.s "hi")]])]) "attrs" = some headingAttrs :=
  (C10_inject_attributes_forces_attrs
    [("type", JValue.s "heading"), ("attrs", JValue.s "junk"),
     ("content", JValue.arr [JValue.obj [("type", JValue.s "text"),
       ("text", JValue.s "hi")]])]
    (JValue.obj [("type", JValue.s "heading"), ("attrs", headingAttrs),
      ("content", JValue.arr [JValue.obj [("type", JValue.s "text"),
        ("text", JValue.s "hi")]])])
    (by simp [inject_attributes, inject_attributes_list, attr_step, attr_step_str,
      objGet, objSet, headingAttrs])).1
    (by simp [objGet])

/-- C4 (counterexample): at a template carrying all three placeholders, the
system instruction built by _stream_content differs from the instruction
the spec describes (all three placeholders substituted), because the code
substitutes only the tone placeholder. -/
theorem C4_counterexample_format_style_not_substituted :
    stream_content_system_prompt
        "You are a \x7b\x7bTONE\x7d\x7d creator in \x7b\x7bFORMAT\x7d\x7d format with \x7b\x7bSTYLE\x7d\x7d style."
        "casual" ≠
      spec_draft_system_instruction
        "You are a \x7b\x7bTONE\x7d\x7d creator in \x7b\x7bFORMAT\x7d\x7d format with \x7b\x7bSTYLE\x7d\x7d style."
        "casual" "article" "blog post" := by
  decide

/-- C4 (amended): the system instruction sent by the draft-content stream
is the fixed template with only the tone placeholder substituted by the
tone parameter — the format and style placeholders are left in place, and
the request carries no format or style parameters — and it is paired with
the user prompt as a two-message exchange: one system message then one
user message. -/
theorem C4_amended_tone_only_substitution (template tone userPrompt : String) :
    (stream_content_messages template tone userPrompt).map Prod.fst =
      ["system", "user"] ∧
    stream_content_messages template tone userPrompt =
      [("system", py_replace template TONE_PLACEHOLDER tone), ("user", userPrompt)] ∧
    stream_content_system_prompt
        "A \x7b\x7bTONE\x7d\x7d B \x7b\x7bFORMAT\x7d\x7d C \x7b\x7bSTYLE\x7d\x7d" "casual" =
      "A casual B \x7b\x7bFORMAT\x7d\x7d C \x7b\x7bSTYLE\x7d\x7d" :=
  ⟨rfl, rfl, by decide⟩

/-- C5 (counterexample): for the consumed event sequence made of an error
event followed by a done event, the loop emits the error line and then the
done line: the error line is not the last line emitted, because the loop
does not break after an error event. -/
theorem C5_counterexample_error_line_not_last :
    stream_content_lines [.errorEvent "boom", .contentDone] =
      [error_line "boom", done_line] ∧
    (stream_content_lines [.errorEvent "boom", .contentDone]).getLast? =
      some done_line ∧
    done_line ≠ error_line "boom" := by
  refine ⟨rfl, rfl, ?_⟩
  simp only [done_line, error_line, jsonDumps, jsonDumpsFields, json_escape]
  decide

/-- C5 (amended): every emitted line is of one of the three shapes — the
serialization of a non-None delta payload, the done line, or an error line
— each traceable to an event of the consumed sequence; a done event always
contributes exactly its one done line in sequence position; and when the
error event is the last event consumed (the provider closes the stream on
error), its line is the last line emitted and the previously emitted
content lines are preserved, not retracted. -/
theorem C5_amended_line_shapes_and_error_tail (events es : List StreamEvent)
    (m : String) :
    (∀ l ∈ stream_content_lines events,
      (∃ p, l = delta_line p ∧ StreamEvent.contentDelta (some p) ∈ events) ∨
      l = done_line ∨
      (∃ m2, l = error_line m2 ∧ StreamEvent.errorEvent m2 ∈ events)) ∧
    stream_content_lines (es ++ [StreamEvent.errorEvent m]) =
      stream_content_lines es ++ [error_line m] ∧
    (∀ es2, stream_content_lines (es ++ StreamEvent.contentDone :: es2) =
      stream_content_lines es ++ done_line :: stream_content_lines es2) := by
  refine ⟨?_, ?_, ?_⟩
  · induction events with
    | nil => simp [stream_content_lines]
    | cons e esx ih =>
      intro l hl
      rcases List.mem_append.mp hl with h1 | h2
      · cases e with
        | contentDelta p =>
          cases p with
          | some pv =>
            simp only [stream_event_lines, List.mem_singleton] at h1
            subst h1
            exact Or.inl ⟨pv, rfl, by simp⟩
          | none => simp [stream_event_lines] at h1
        | contentDone =>
          simp only [stream_event_lines, List.mem_singleton] at h1
          subst h1
          exact Or.inr (Or.inl rfl)
        | errorEvent m2 =>
          simp only [stream_event_lines, List.mem_singleton] at h1
          subst h1
          exact Or.inr (Or.inr ⟨m2, rfl, by simp⟩)
        | otherEvent ty => simp [stream_event_lines] at h1
      · rcases ih l h2 with ⟨p, hp, hmem⟩ | hdone | ⟨m2, hm2, hmem⟩
        · exact Or.inl ⟨p, hp, List.mem_cons_of_mem _ hmem⟩
        · exact Or.inr (Or.inl hdone)
        · exact Or.inr (Or.inr ⟨m2, hm2, List.mem_cons_of_mem _ hmem⟩)
  · rw [stream_content_lines_append]
    simp [stream_content_lines, stream_event_lines]
  · intro es2
    rw [stream_content_lines_append]
    simp [stream_content_lines, stream_event_lines]

/-- Witness for the amended C5: a concrete stream whose error event is
last preserves the earlier done line and appends the error line, and a
concrete emitted line is classified by the shape alternative with its
membership discharged. -/
theorem C5_amended_line_shapes_and_error_tail_witness :
    stream_content_lines ([StreamEvent.contentDone] ++ [StreamEvent.errorEvent "boom"]) =
      stream_content_lines [StreamEvent.contentDone] ++ [error_line "boom"] ∧
    ((∃ p, error_line "x" = delta_line p ∧
        StreamEvent.contentDelta (some p) ∈ [StreamEvent.errorEvent "x"]) ∨
      error_line "x" = done_line ∨
      (∃ m2, error_line "x" = error_line m2 ∧
        StreamEvent.errorEvent m2 ∈ [StreamEvent.errorEvent "x"])) :=
  ⟨(C5_amended_line_shapes_and_error_tail [] [StreamEvent.contentDone] "boom").2.1,
   (C5_amended_line_shapes_and_error_tail [StreamEvent.errorEvent "x"] [] "y").1
     (error_line "x") (by simp [stream_content_lines, stream_event_lines])⟩
